import Mathlib

/-!
# Verification of the fork/exec primitive in `src/Sources/CLib/shims.c`

A shallow embedding of `_clib_fork_exec` and its helper
`notify_parent_and_exit`.  System calls are modelled by an oracle (a
record of their results); the parent side is a function from that
oracle to the returned value together with bookkeeping fields (which
descriptors were opened/closed, whether `fork`/`waitpid` ran), and the
child side is a function producing the ordered trace of actions the
child performs.  All numeric constants are the Linux values used by the
C source.
-/

namespace CLibShims

/-- `_CLIB_FORK_EXEC_ERR_PIPE_OPEN` : parent failed to create the pipe. -/
def CLIB_FORK_EXEC_ERR_PIPE_OPEN : Int := -1

/-- `_CLIB_FORK_EXEC_ERR_FORK` : parent failed to fork. -/
def CLIB_FORK_EXEC_ERR_FORK : Int := -2

/-- `_CLIB_FORK_EXEC_ERR_PIPE_READ` : parent failed reading the pipe. -/
def CLIB_FORK_EXEC_ERR_PIPE_READ : Int := -3

/-- `_CLIB_FORK_EXEC_CHILD_ERR_DUP2` : child failed a `dup2`. -/
def CLIB_FORK_EXEC_CHILD_ERR_DUP2 : Int := -4

/-- `_CLIB_FORK_EXEC_CHILD_ERR_PIPE_CLOEXEC` : child failed `FD_CLOEXEC`. -/
def CLIB_FORK_EXEC_CHILD_ERR_PIPE_CLOEXEC : Int := -5

/-- `_CLIB_FORK_EXEC_CHILD_ERR_EXEC` : child's `execve` returned. -/
def CLIB_FORK_EXEC_CHILD_ERR_EXEC : Int := -6

/-- `FORK_EXEC_ERR_MESSAGE_SIZE = 2 * sizeof(int)` : the byte size of a
failure record (two 4-byte ints). -/
def FORK_EXEC_ERR_MESSAGE_SIZE : Nat := 2 * 4

/-- Linux `EINTR`. -/
def EINTR : Int := 4

/-- Linux `EAGAIN`. -/
def EAGAIN : Int := 11

/-- Linux `EDOM`, the sentinel the parent stores for malformed reads. -/
def EDOM : Int := 33

/-- Linux/glibc `NSIG` (signal numbers are `1 .. NSIG - 1`). -/
def NSIG : Nat := 65

/-- `STDIN_FILENO`. -/
def STDIN_FILENO : Int := 0

/-- `STDOUT_FILENO`. -/
def STDOUT_FILENO : Int := 1

/-- `STDERR_FILENO`. -/
def STDERR_FILENO : Int := 2

/-- The result of one `read(exec_pipe_read, buffer, 8)` in the parent:
either an error (`read` returned `-1` with this `errno`), or `n` bytes
of data; when `n = 8` the two ints read into `buffer` are `stage` and
`errval`. -/
inductive ReadResult
  | readErr (errno : Int)
  | readData (n : Nat) (stage errval : Int)
deriving DecidableEq, Repr

/-- The parent's `while (result == 0)` read loop from `_clib_fork_exec`,
over the stream `rs` of successive read results.  The first argument of
the recursion is the current value of `*err_out` (the C code sets it to
`0` before the loop); the result is `some (result, err_out)` when the
loop exits, `none` when the stream is exhausted with `result` still `0`
(the loop would block on a further `read`). -/
def readLoop (pid : Int) : Int → List ReadResult → Option (Int × Int)
  | _, [] => none
  | errOut, ReadResult.readErr e :: rs =>
      if e ≠ EINTR ∧ e ≠ EAGAIN then
        some (CLIB_FORK_EXEC_ERR_PIPE_READ, e)
      else
        readLoop pid errOut rs
  | errOut, ReadResult.readData n stage errval :: rs =>
      if n = 0 then
        some (pid, errOut)
      else if n = FORK_EXEC_ERR_MESSAGE_SIZE then
        -- result = buffer[0]; *err_out = buffer[1]; loop re-checks result == 0
        if stage = 0 then readLoop pid errval rs else some (stage, errval)
      else
        some (CLIB_FORK_EXEC_ERR_PIPE_READ, EDOM)

/-- The stage codes the child-side bootstrap can ever write into a
failure record. -/
def isChildStage (s : Int) : Prop :=
  s = CLIB_FORK_EXEC_CHILD_ERR_DUP2 ∨
  s = CLIB_FORK_EXEC_CHILD_ERR_PIPE_CLOEXEC ∨
  s = CLIB_FORK_EXEC_CHILD_ERR_EXEC

instance (s : Int) : Decidable (isChildStage s) := by
  unfold isChildStage; infer_instance

/-- A read result that can actually occur on the error channel: the
write end is held only by the child, which writes at most one 8-byte
record (atomically, being below `PIPE_BUF`) whose stage is one of the
child stage codes; so data reads return either `0` bytes (end of
stream) or one whole record. -/
def ProtocolRead : ReadResult → Prop
  | ReadResult.readErr _ => True
  | ReadResult.readData n stage _ =>
      n = 0 ∨ (n = FORK_EXEC_ERR_MESSAGE_SIZE ∧ isChildStage stage)

instance (r : ReadResult) : Decidable (ProtocolRead r) := by
  cases r <;> (unfold ProtocolRead; infer_instance)

/-- Result of `pipe(exec_pipe)`. -/
inductive PipeRes
  | ok (readEnd writeEnd : Int)
  | fail (errno : Int)
deriving DecidableEq, Repr

/-- Result of `fork()` as seen by the parent: a child pid, or `-1` with
an `errno`. -/
inductive ForkRes
  | ok (pid : Int)
  | fail (errno : Int)
deriving DecidableEq, Repr

/-- The oracle for the parent side of one `_clib_fork_exec` call. -/
structure World where
  pipeRes : PipeRes
  forkRes : ForkRes
  reads : List ReadResult
deriving DecidableEq, Repr

/-- What one `_clib_fork_exec` call did, as seen by its caller:
the returned value, the final `*err_out`, the descriptors the call
opened and closed (in order), and whether `fork` was attempted,
succeeded, and whether `waitpid` reclaimed the child. -/
structure ParentResult where
  ret : Int
  errOut : Int
  opened : List Int
  closed : List Int
  forkAttempted : Bool
  forked : Bool
  waited : Bool
deriving DecidableEq, Repr

/-- The parent side of `_clib_fork_exec` (`shims.c`), over the oracle
`w`.  `none` models the call blocking forever in the read loop. -/
def clib_fork_exec (w : World) : Option ParentResult :=
  match w.pipeRes with
  | PipeRes.fail e =>
      some ⟨CLIB_FORK_EXEC_ERR_PIPE_OPEN, e, [], [], false, false, false⟩
  | PipeRes.ok rd wr =>
      match w.forkRes with
      | ForkRes.fail e =>
          some ⟨CLIB_FORK_EXEC_ERR_FORK, e, [rd, wr], [rd, wr], true, false, false⟩
      | ForkRes.ok pid =>
          match readLoop pid 0 w.reads with
          | none => none
          | some (res, eo) =>
              -- close(wr) before the loop; waitpid iff result < 0; close(rd) after
              some ⟨res, eo, [rd, wr], [wr, rd], true, true, decide (res < 0)⟩

/-- Result of the child's `write` of the failure record. -/
inductive WriteRes
  | ok
  | fail (errno : Int)
deriving DecidableEq, Repr

/-- One action the child-side bootstrap performs, in program order. -/
inductive ChildAction
  | closeFd (fd : Int)
  | dup2 (src dst : Int)
  | setCloexec (fd : Int)
  | resetSignal (i : Nat)
  | unblockAll
  | execveAct
  | writeRecord (fd stage errval : Int)
  | exitStatus (s : Int)
deriving DecidableEq, Repr

/-- `notify_parent_and_exit` (`shims.c`): write the two-int record
`{operation, err}` to the pipe and `_exit(127)`.  The result of the
`write` is discarded by the C code, so `wres` does not influence the
trace. -/
def notify_parent_and_exit (wres : WriteRes) (pipeWrite operation err : Int) :
    List ChildAction :=
  match wres with
  | WriteRes.ok => [ChildAction.writeRecord pipeWrite operation err, ChildAction.exitStatus 127]
  | WriteRes.fail _ => [ChildAction.writeRecord pipeWrite operation err, ChildAction.exitStatus 127]

/-- The descriptors the child's cleanup loop closes:
`for (fd = STDERR_FILENO + 1; fd <= getdtablesize(); fd++) if (fd != exec_pipe_write) close(fd);`. -/
def closeLoopFds (dtablesize : Nat) (pipeWrite : Int) : List Int :=
  (List.map Int.ofNat (List.range' 3 (dtablesize - 2))).filter (fun fd => fd ≠ pipeWrite)

/-- The trace of the child's descriptor cleanup loop. -/
def closeLoop (dtablesize : Nat) (pipeWrite : Int) : List ChildAction :=
  (closeLoopFds dtablesize pipeWrite).map ChildAction.closeFd

/-- The trace of `for (i = 1; i < NSIG; i++) signal(i, SIG_DFL);`. -/
def signalResetTrace : List ChildAction :=
  (List.range' 1 (NSIG - 1)).map ChildAction.resetSignal

/-- The oracle for the child side: the outcome of each fallible step
(`none` = success, `some errno` = failure), the outcome of the error
write, and `getdtablesize()`. -/
structure ChildWorld where
  dup2StdinErr : Option Int
  dup2StdoutErr : Option Int
  dup2StderrErr : Option Int
  cloexecErr : Option Int
  execErr : Option Int
  writeRes : WriteRes
  dtablesize : Nat
deriving DecidableEq, Repr

/-- The child branch of `_clib_fork_exec` (`shims.c`), as the ordered
trace of the actions it performs.  A trace ending in `execveAct` means
the image was replaced (control never returned); otherwise the trace
ends with the failure record and `_exit(127)`. -/
def childRun (w : ChildWorld) (fd_stdin fd_stdout fd_stderr pipeRead pipeWrite : Int) :
    List ChildAction :=
  ChildAction.closeFd pipeRead ::
  ChildAction.dup2 fd_stdin STDIN_FILENO ::
  match w.dup2StdinErr with
  | some e => notify_parent_and_exit w.writeRes pipeWrite CLIB_FORK_EXEC_CHILD_ERR_DUP2 e
  | none =>
    ChildAction.dup2 fd_stdout STDOUT_FILENO ::
    match w.dup2StdoutErr with
    | some e => notify_parent_and_exit w.writeRes pipeWrite CLIB_FORK_EXEC_CHILD_ERR_DUP2 e
    | none =>
      ChildAction.dup2 fd_stderr STDERR_FILENO ::
      match w.dup2StderrErr with
      | some e => notify_parent_and_exit w.writeRes pipeWrite CLIB_FORK_EXEC_CHILD_ERR_DUP2 e
      | none =>
        ChildAction.closeFd fd_stdin ::
        ChildAction.closeFd fd_stdout ::
        ChildAction.closeFd fd_stderr ::
        (closeLoop w.dtablesize pipeWrite ++
          ChildAction.setCloexec pipeWrite ::
          match w.cloexecErr with
          | some e =>
              notify_parent_and_exit w.writeRes pipeWrite CLIB_FORK_EXEC_CHILD_ERR_PIPE_CLOEXEC e
          | none =>
              signalResetTrace ++
              ChildAction.unblockAll ::
              ChildAction.execveAct ::
              match w.execErr with
              | none => []
              | some e =>
                  notify_parent_and_exit w.writeRes pipeWrite CLIB_FORK_EXEC_CHILD_ERR_EXEC e)

/-- Some step of the child-side bootstrap fails. -/
def ChildFails (w : ChildWorld) : Prop :=
  w.dup2StdinErr ≠ none ∨ w.dup2StdoutErr ≠ none ∨ w.dup2StderrErr ≠ none ∨
  w.cloexecErr ≠ none ∨ w.execErr ≠ none

instance (w : ChildWorld) : Decidable (ChildFails w) := by
  unfold ChildFails; infer_instance

/-- Is this action a write of a failure record? -/
def isWriteRecord : ChildAction → Bool
  | ChildAction.writeRecord _ _ _ => true
  | _ => false

/-! ## Helper lemmas -/

lemma notify_parent_and_exit_eq (wres : WriteRes) (pipeWrite operation err : Int) :
    notify_parent_and_exit wres pipeWrite operation err =
      [ChildAction.writeRecord pipeWrite operation err, ChildAction.exitStatus 127] := by
  cases wres <;> rfl

lemma mem_closeLoopFds (n : Nat) (pw fd : Int) :
    fd ∈ closeLoopFds n pw ↔ (3 ≤ fd ∧ fd ≤ (n : Int) ∧ fd ≠ pw) := by
  unfold closeLoopFds
  rw [List.mem_filter, List.mem_map]
  constructor
  · rintro ⟨⟨m, hm, rfl⟩, hp⟩
    rw [List.mem_range'_1] at hm
    have hp2 : (Int.ofNat m) ≠ pw := by simpa using hp
    refine ⟨?_, ?_, hp2⟩ <;> simp only [Int.ofNat_eq_natCast] <;> omega
  · rintro ⟨h3, hn, hp⟩
    refine ⟨⟨fd.toNat, ?_, ?_⟩, by simpa using hp⟩
    · rw [List.mem_range'_1]; omega
    · simp only [Int.ofNat_eq_natCast]; omega

lemma countP_isWriteRecord_closeLoop (n : Nat) (pw : Int) :
    (closeLoop n pw).countP isWriteRecord = 0 := by
  rw [List.countP_eq_zero]
  intro a ha
  simp only [closeLoop, List.mem_map] at ha
  obtain ⟨fd, _, rfl⟩ := ha
  simp [isWriteRecord]

lemma countP_isWriteRecord_signalResetTrace :
    signalResetTrace.countP isWriteRecord = 0 := by
  rw [List.countP_eq_zero]
  intro a ha
  simp only [signalResetTrace, List.mem_map] at ha
  obtain ⟨i, _, rfl⟩ := ha
  simp [isWriteRecord]

lemma readLoop_benign_none (pid : Int) :
    ∀ (rs : List ReadResult) (errOut : Int),
      (∀ r ∈ rs, ∃ e2, r = ReadResult.readErr e2 ∧ (e2 = EINTR ∨ e2 = EAGAIN)) →
      readLoop pid errOut rs = none := by
  intro rs
  induction rs with
  | nil => intro errOut _; rfl
  | cons r rs ih =>
    intro errOut hb
    obtain ⟨e2, he, hbenign⟩ := hb r (List.mem_cons_self r rs)
    subst he
    have hcond : ¬(e2 ≠ EINTR ∧ e2 ≠ EAGAIN) := by tauto
    simp only [readLoop, if_neg hcond]
    exact ih errOut (fun x hx => hb x (List.mem_cons_of_mem _ hx))

lemma readLoop_protocol_cases (pid : Int) :
    ∀ (rs : List ReadResult) (errOut res eo : Int),
      (∀ r ∈ rs, ProtocolRead r) →
      readLoop pid errOut rs = some (res, eo) →
      (res = pid ∧ eo = errOut) ∨ isChildStage res ∨
        res = CLIB_FORK_EXEC_ERR_PIPE_READ := by
  intro rs
  induction rs with
  | nil => intro errOut res eo _ h; simp [readLoop] at h
  | cons r rs ih =>
    intro errOut res eo hp h
    have hpr := hp r (List.mem_cons_self r rs)
    have hptl : ∀ x ∈ rs, ProtocolRead x := fun x hx => hp x (List.mem_cons_of_mem _ hx)
    cases r with
    | readErr e =>
      simp only [readLoop] at h
      split at h
      · simp only [Option.some.injEq, Prod.mk.injEq] at h
        exact Or.inr (Or.inr h.1.symm)
      · exact ih errOut res eo hptl h
    | readData n stage errval =>
      simp only [readLoop] at h
      split at h
      · simp only [Option.some.injEq, Prod.mk.injEq] at h
        exact Or.inl ⟨h.1.symm, h.2.symm⟩
      · split at h
        · rename_i hn0 hn8
          have hstage : isChildStage stage := by
            rcases hpr with h0 | ⟨_, hs⟩
            · exact absurd h0 hn0
            · exact hs
          split at h
          · rename_i hz
            exfalso
            rcases hstage with hs | hs | hs <;> rw [hs] at hz <;> exact absurd hz (by decide)
          · simp only [Option.some.injEq, Prod.mk.injEq] at h
            exact Or.inr (Or.inl (h.1 ▸ hstage))
        · simp only [Option.some.injEq, Prod.mk.injEq] at h
          exact Or.inr (Or.inr h.1.symm)

/-! ## Claims about the parent read loop -/

/-- **C1** The parent-side read loop terminates only on one of four
conditions and maps each to the specified outcome: a 0-byte read yields
success (the child's pid is returned and `*err_out` is untouched); a
read of exactly the FailureRecord size yields the record's stage as the
result with its errno in `*err_out`; a read error with errno other than
`EINTR`/`EAGAIN` yields `Failed(channel-read-protocol, errno)`; an
`EINTR`/`EAGAIN` read error is retried and never terminates the loop
(a stream of only such errors never terminates); and on every
protocol-conforming stream a terminating run produces one of exactly
these outcomes. -/
theorem readLoop_terminal_conditions (pid errOut e stage errval : Int)
    (rs : List ReadResult) :
    (readLoop pid errOut (ReadResult.readData 0 stage errval :: rs) = some (pid, errOut))
    ∧ (isChildStage stage →
        readLoop pid errOut
            (ReadResult.readData FORK_EXEC_ERR_MESSAGE_SIZE stage errval :: rs) =
          some (stage, errval))
    ∧ (e ≠ EINTR → e ≠ EAGAIN →
        readLoop pid errOut (ReadResult.readErr e :: rs) =
          some (CLIB_FORK_EXEC_ERR_PIPE_READ, e))
    ∧ (e = EINTR ∨ e = EAGAIN →
        readLoop pid errOut (ReadResult.readErr e :: rs) = readLoop pid errOut rs)
    ∧ ((∀ r ∈ rs, ∃ e2, r = ReadResult.readErr e2 ∧ (e2 = EINTR ∨ e2 = EAGAIN)) →
        readLoop pid errOut rs = none)
    ∧ ((∀ r ∈ rs, ProtocolRead r) → ∀ res eo,
        readLoop pid errOut rs = some (res, eo) →
        (res = pid ∧ eo = errOut) ∨ isChildStage res ∨
          res = CLIB_FORK_EXEC_ERR_PIPE_READ) := by
  refine ⟨by simp [readLoop], ?_, ?_, ?_, readLoop_benign_none pid rs errOut,
    fun hp res eo h => readLoop_protocol_cases pid rs errOut res eo hp h⟩
  · intro hs
    have hz : stage ≠ 0 := by
      rcases hs with h | h | h <;> rw [h] <;> decide
    simp [readLoop, FORK_EXEC_ERR_MESSAGE_SIZE, hz]
  · intro h1 h2
    simp [readLoop, h1, h2]
  · intro hb
    have hcond : ¬(e ≠ EINTR ∧ e ≠ EAGAIN) := by tauto
    simp only [readLoop, if_neg hcond]

/-- Witness for C1: a whole record carrying the `child-exec` stage
terminates the loop with that stage and errno. -/
theorem readLoop_terminal_conditions_w :
    readLoop 42 0
        [ReadResult.readData FORK_EXEC_ERR_MESSAGE_SIZE CLIB_FORK_EXEC_CHILD_ERR_EXEC 2] =
      some (CLIB_FORK_EXEC_CHILD_ERR_EXEC, 2) :=
  (readLoop_terminal_conditions 42 0 0 CLIB_FORK_EXEC_CHILD_ERR_EXEC 2 []).2.1
    (Or.inr (Or.inr rfl))

/-- **C7** A read returning a byte count that is non-zero and not the
FailureRecord size makes the loop return the `channel-read-protocol`
failure with `*err_out` set to the fixed sentinel `EDOM`, whatever the
bytes contained. -/
theorem readLoop_malformed_edom (pid errOut stage errval : Int) (n : Nat)
    (rs : List ReadResult) (h0 : n ≠ 0) (h8 : n ≠ FORK_EXEC_ERR_MESSAGE_SIZE) :
    readLoop pid errOut (ReadResult.readData n stage errval :: rs) =
      some (CLIB_FORK_EXEC_ERR_PIPE_READ, EDOM) := by
  simp [readLoop, h0, h8]

/-- Witness for C7: a 3-byte read is escalated with the `EDOM` sentinel. -/
theorem readLoop_malformed_edom_w :
    readLoop 42 7 [ReadResult.readData 3 5 6] =
      some (CLIB_FORK_EXEC_ERR_PIPE_READ, EDOM) :=
  readLoop_malformed_edom 42 7 5 6 3 [] (by decide) (by decide)

/-! ## Claims about the parent side of `_clib_fork_exec` -/

/-- **C5** When `pipe` fails, `_clib_fork_exec` returns
`Failed(channel-create, errno)` immediately: no fork is attempted, no
child exists, no descriptor was opened or closed by the call, and
`*err_out` carries the `pipe` errno. -/
theorem clib_fork_exec_pipe_fail (w : World) (e : Int)
    (hp : w.pipeRes = PipeRes.fail e) :
    clib_fork_exec w =
      some ⟨CLIB_FORK_EXEC_ERR_PIPE_OPEN, e, [], [], false, false, false⟩ := by
  simp [clib_fork_exec, hp]

/-- Witness for C5. -/
theorem clib_fork_exec_pipe_fail_w :
    clib_fork_exec ⟨PipeRes.fail 24, ForkRes.ok 100, []⟩ =
      some ⟨CLIB_FORK_EXEC_ERR_PIPE_OPEN, 24, [], [], false, false, false⟩ :=
  clib_fork_exec_pipe_fail ⟨PipeRes.fail 24, ForkRes.ok 100, []⟩ 24 rfl

/-- **C4** When `fork` fails, `_clib_fork_exec` closes both pipe ends
(read end then write end) and returns `Failed(fork, errno)` with
`*err_out` carrying the errno produced by the `fork` call itself. -/
theorem clib_fork_exec_fork_fail (w : World) (rd wr e : Int)
    (hp : w.pipeRes = PipeRes.ok rd wr) (hf : w.forkRes = ForkRes.fail e) :
    clib_fork_exec w =
      some ⟨CLIB_FORK_EXEC_ERR_FORK, e, [rd, wr], [rd, wr], true, false, false⟩ := by
  simp [clib_fork_exec, hp, hf]

/-- Witness for C4. -/
theorem clib_fork_exec_fork_fail_w :
    clib_fork_exec ⟨PipeRes.ok 3 4, ForkRes.fail 12, []⟩ =
      some ⟨CLIB_FORK_EXEC_ERR_FORK, 12, [3, 4], [3, 4], true, false, false⟩ :=
  clib_fork_exec_fork_fail ⟨PipeRes.ok 3 4, ForkRes.fail 12, []⟩ 3 4 12 rfl rfl

/-- **C2** Whenever `_clib_fork_exec` returns a `Failed` outcome
(negative result): for a child-side stage a child was forked and has
been reclaimed by the blocking `waitpid` before returning; for the
`channel-create` and `fork` stages no child was ever forked; and for
the `channel-read-protocol` stage any forked child has likewise been
reclaimed, so no child process attributable to the call exists when it
returns. -/
theorem clib_fork_exec_failed_no_zombie (w : World) (r : ParentResult)
    (hpid : ∀ pid, w.forkRes = ForkRes.ok pid → 0 < pid)
    (hproto : ∀ x ∈ w.reads, ProtocolRead x)
    (h : clib_fork_exec w = some r) (hf : r.ret < 0) :
    (isChildStage r.ret → r.forked = true ∧ r.waited = true)
    ∧ ((r.ret = CLIB_FORK_EXEC_ERR_PIPE_OPEN ∨ r.ret = CLIB_FORK_EXEC_ERR_FORK) →
        r.forked = false)
    ∧ (r.ret = CLIB_FORK_EXEC_ERR_PIPE_READ → r.forked = true ∧ r.waited = true) := by
  cases hw : w.pipeRes with
  | fail e =>
    simp only [clib_fork_exec, hw, Option.some.injEq] at h
    subst h
    dsimp only at hf ⊢
    exact ⟨fun hc => absurd (show (-1 : Int) = -4 ∨ (-1 : Int) = -5 ∨ (-1 : Int) = -6 from hc)
        (by decide),
      fun _ => rfl,
      fun hc => absurd (show (-1 : Int) = -3 from hc) (by decide)⟩
  | ok rd wr =>
    cases hk : w.forkRes with
    | fail e =>
      simp only [clib_fork_exec, hw, hk, Option.some.injEq] at h
      subst h
      dsimp only at hf ⊢
      exact ⟨fun hc => absurd (show (-2 : Int) = -4 ∨ (-2 : Int) = -5 ∨ (-2 : Int) = -6 from hc)
          (by decide),
        fun _ => rfl,
        fun hc => absurd (show (-2 : Int) = -3 from hc) (by decide)⟩
    | ok pid =>
      simp only [clib_fork_exec, hw, hk] at h
      cases hl : readLoop pid 0 w.reads with
      | none => rw [hl] at h; exact absurd h (by simp)
      | some p =>
        obtain ⟨res, eo⟩ := p
        rw [hl] at h
        simp only [Option.some.injEq] at h
        subst h
        dsimp only at hf ⊢
        have hcases := readLoop_protocol_cases pid w.reads 0 res eo hproto hl
        have hpid0 : 0 < pid := hpid pid hk
        have hwt : decide (res < 0) = true := decide_eq_true hf
        refine ⟨fun _ => ⟨rfl, hwt⟩, ?_, fun _ => ⟨rfl, hwt⟩⟩
        intro hc
        exfalso
        have hc2 : res = -1 ∨ res = -2 := hc
        rcases hcases with ⟨hres, _⟩ | hcs | hres
        · subst hres; omega
        · have hc3 : res = -4 ∨ res = -5 ∨ res = -6 := hcs
          omega
        · have hc3 : res = -3 := hres
          omega

/-- Witness for C2: a `child-exec` failure record leads to a forked and
reclaimed child. -/
theorem clib_fork_exec_failed_no_zombie_w :
    (⟨CLIB_FORK_EXEC_CHILD_ERR_EXEC, 2, [3, 4], [4, 3], true, true, true⟩ :
        ParentResult).forked = true ∧
    (⟨CLIB_FORK_EXEC_CHILD_ERR_EXEC, 2, [3, 4], [4, 3], true, true, true⟩ :
        ParentResult).waited = true :=
  (clib_fork_exec_failed_no_zombie
    ⟨PipeRes.ok 3 4, ForkRes.ok 100,
      [ReadResult.readData FORK_EXEC_ERR_MESSAGE_SIZE CLIB_FORK_EXEC_CHILD_ERR_EXEC 2]⟩
    ⟨CLIB_FORK_EXEC_CHILD_ERR_EXEC, 2, [3, 4], [4, 3], true, true, true⟩
    (fun pid hp => by injection hp with h2; omega)
    (by decide) (by decide) (by decide)).1 (by decide)

/-- **C10** `*err_out` is written on entry and only overwritten on
failure paths: every call that returns a successful outcome (a positive
pid) returns with `*err_out = 0`. -/
theorem clib_fork_exec_err_out_success (w : World) (r : ParentResult)
    (hproto : ∀ x ∈ w.reads, ProtocolRead x)
    (h : clib_fork_exec w = some r) (hs : 0 < r.ret) : r.errOut = 0 := by
  cases hw : w.pipeRes with
  | fail e =>
    simp only [clib_fork_exec, hw, Option.some.injEq] at h
    subst h
    dsimp only at hs
    exact absurd (show (0 : Int) < -1 from hs) (by decide)
  | ok rd wr =>
    cases hk : w.forkRes with
    | fail e =>
      simp only [clib_fork_exec, hw, hk, Option.some.injEq] at h
      subst h
      dsimp only at hs
      exact absurd (show (0 : Int) < -2 from hs) (by decide)
    | ok pid =>
      simp only [clib_fork_exec, hw, hk] at h
      cases hl : readLoop pid 0 w.reads with
      | none => rw [hl] at h; exact absurd h (by simp)
      | some p =>
        obtain ⟨res, eo⟩ := p
        rw [hl] at h
        simp only [Option.some.injEq] at h
        subst h
        dsimp only at hs ⊢
        have hcases := readLoop_protocol_cases pid w.reads 0 res eo hproto hl
        rcases hcases with ⟨_, heo⟩ | hcs | hres
        · exact heo
        · exfalso
          have hc3 : res = -4 ∨ res = -5 ∨ res = -6 := hcs
          omega
        · exfalso
          have hc3 : res = -3 := hres
          omega

/-- Witness for C10: a clean end-of-stream read returns the pid with
`*err_out = 0`. -/
theorem clib_fork_exec_err_out_success_w :
    (⟨100, 0, [3, 4], [4, 3], true, true, false⟩ : ParentResult).errOut = 0 :=
  clib_fork_exec_err_out_success
    ⟨PipeRes.ok 3 4, ForkRes.ok 100, [ReadResult.readData 0 0 0]⟩
    ⟨100, 0, [3, 4], [4, 3], true, true, false⟩
    (by decide) (by decide) (by decide)

/-! ## Claims about the child-side bootstrap -/

/-- **C3** The child bootstrap performs its steps in exactly the order
(1) close the channel read end, (2) `dup2` onto stdin then stdout then
stderr tagging `child-redirect` on any failure, (3) close the three
original descriptors, (4) run the descriptor cleanup loop, (5) mark the
channel write end close-on-exec tagging `child-channel-cloexec` on
failure, (6) reset and unblock all signals, (7) `execve`, tagging
`child-exec` with the OS errno if control returns; a successful step 7
ends the trace at the `execve`. -/
theorem childRun_stage_order (w : ChildWorld) (fin fout ferr pr pw : Int) :
    (∀ e, w.dup2StdinErr = some e →
      childRun w fin fout ferr pr pw =
        [ChildAction.closeFd pr, ChildAction.dup2 fin STDIN_FILENO,
         ChildAction.writeRecord pw CLIB_FORK_EXEC_CHILD_ERR_DUP2 e,
         ChildAction.exitStatus 127])
    ∧ (∀ e, w.dup2StdinErr = none → w.dup2StdoutErr = some e →
      childRun w fin fout ferr pr pw =
        [ChildAction.closeFd pr, ChildAction.dup2 fin STDIN_FILENO,
         ChildAction.dup2 fout STDOUT_FILENO,
         ChildAction.writeRecord pw CLIB_FORK_EXEC_CHILD_ERR_DUP2 e,
         ChildAction.exitStatus 127])
    ∧ (∀ e, w.dup2StdinErr = none → w.dup2StdoutErr = none → w.dup2StderrErr = some e →
      childRun w fin fout ferr pr pw =
        [ChildAction.closeFd pr, ChildAction.dup2 fin STDIN_FILENO,
         ChildAction.dup2 fout STDOUT_FILENO, ChildAction.dup2 ferr STDERR_FILENO,
         ChildAction.writeRecord pw CLIB_FORK_EXEC_CHILD_ERR_DUP2 e,
         ChildAction.exitStatus 127])
    ∧ (∀ e, w.dup2StdinErr = none → w.dup2StdoutErr = none → w.dup2StderrErr = none →
        w.cloexecErr = some e →
      childRun w fin fout ferr pr pw =
        [ChildAction.closeFd pr, ChildAction.dup2 fin STDIN_FILENO,
         ChildAction.dup2 fout STDOUT_FILENO, ChildAction.dup2 ferr STDERR_FILENO,
         ChildAction.closeFd fin, ChildAction.closeFd fout, ChildAction.closeFd ferr] ++
        closeLoop w.dtablesize pw ++
        [ChildAction.setCloexec pw,
         ChildAction.writeRecord pw CLIB_FORK_EXEC_CHILD_ERR_PIPE_CLOEXEC e,
         ChildAction.exitStatus 127])
    ∧ (∀ e, w.dup2StdinErr = none → w.dup2StdoutErr = none → w.dup2StderrErr = none →
        w.cloexecErr = none → w.execErr = some e →
      childRun w fin fout ferr pr pw =
        [ChildAction.closeFd pr, ChildAction.dup2 fin STDIN_FILENO,
         ChildAction.dup2 fout STDOUT_FILENO, ChildAction.dup2 ferr STDERR_FILENO,
         ChildAction.closeFd fin, ChildAction.closeFd fout, ChildAction.closeFd ferr] ++
        closeLoop w.dtablesize pw ++
        [ChildAction.setCloexec pw] ++ signalResetTrace ++
        [ChildAction.unblockAll, ChildAction.execveAct,
         ChildAction.writeRecord pw CLIB_FORK_EXEC_CHILD_ERR_EXEC e,
         ChildAction.exitStatus 127])
    ∧ (w.dup2StdinErr = none → w.dup2StdoutErr = none → w.dup2StderrErr = none →
        w.cloexecErr = none → w.execErr = none →
      childRun w fin fout ferr pr pw =
        [ChildAction.closeFd pr, ChildAction.dup2 fin STDIN_FILENO,
         ChildAction.dup2 fout STDOUT_FILENO, ChildAction.dup2 ferr STDERR_FILENO,
         ChildAction.closeFd fin, ChildAction.closeFd fout, ChildAction.closeFd ferr] ++
        closeLoop w.dtablesize pw ++
        [ChildAction.setCloexec pw] ++ signalResetTrace ++
        [ChildAction.unblockAll, ChildAction.execveAct]) := by
  refine ⟨?_, ?_, ?_, ?_, ?_, ?_⟩
  · intro e h1
    simp [childRun, h1, notify_parent_and_exit_eq]
  · intro e h1 h2
    simp [childRun, h1, h2, notify_parent_and_exit_eq]
  · intro e h1 h2 h3
    simp [childRun, h1, h2, h3, notify_parent_and_exit_eq]
  · intro e h1 h2 h3 h4
    simp [childRun, h1, h2, h3, h4, notify_parent_and_exit_eq]
  · intro e h1 h2 h3 h4 h5
    simp [childRun, h1, h2, h3, h4, h5, notify_parent_and_exit_eq]
  · intro h1 h2 h3 h4 h5
    simp [childRun, h1, h2, h3, h4, h5]

/-- Witness for C3: a failing `dup2` onto stdin ends the child run with
the `child-redirect` record and exit status 127. -/
theorem childRun_stage_order_w :
    childRun ⟨some 9, none, none, none, none, WriteRes.ok, 6⟩ 10 11 12 13 14 =
      [ChildAction.closeFd 13, ChildAction.dup2 10 STDIN_FILENO,
       ChildAction.writeRecord 14 CLIB_FORK_EXEC_CHILD_ERR_DUP2 9,
       ChildAction.exitStatus 127] :=
  (childRun_stage_order ⟨some 9, none, none, none, none, WriteRes.ok, 6⟩
    10 11 12 13 14).1 9 rfl

/-- **C6** On any child-side failure the child writes exactly one
failure record (a stage code and an errno) to the channel write end and
then terminates with the reserved exit status 127, and the trace is the
same whatever the result of the `write` — a failed write is not
escalated. -/
theorem childRun_single_record (w : ChildWorld) (fin fout ferr pr pw : Int)
    (h : ChildFails w) :
    (∃ p stage e, childRun w fin fout ferr pr pw =
        p ++ [ChildAction.writeRecord pw stage e, ChildAction.exitStatus 127])
    ∧ (childRun w fin fout ferr pr pw).countP isWriteRecord = 1
    ∧ (∀ wres, childRun ⟨w.dup2StdinErr, w.dup2StdoutErr, w.dup2StderrErr, w.cloexecErr,
          w.execErr, wres, w.dtablesize⟩ fin fout ferr pr pw =
        childRun w fin fout ferr pr pw) := by
  rcases hs1 : w.dup2StdinErr with _ | e1
  case some =>
    refine ⟨⟨[ChildAction.closeFd pr, ChildAction.dup2 fin STDIN_FILENO],
      CLIB_FORK_EXEC_CHILD_ERR_DUP2, e1, ?_⟩, ?_, ?_⟩
    · simp [childRun, hs1, notify_parent_and_exit_eq]
    · simp [childRun, hs1, notify_parent_and_exit_eq, List.countP_cons, isWriteRecord]
    · intro wres; simp [childRun, hs1, notify_parent_and_exit_eq]
  rcases hs2 : w.dup2StdoutErr with _ | e2
  case some =>
    refine ⟨⟨[ChildAction.closeFd pr, ChildAction.dup2 fin STDIN_FILENO,
      ChildAction.dup2 fout STDOUT_FILENO],
      CLIB_FORK_EXEC_CHILD_ERR_DUP2, e2, ?_⟩, ?_, ?_⟩
    · simp [childRun, hs1, hs2, notify_parent_and_exit_eq]
    · simp [childRun, hs1, hs2, notify_parent_and_exit_eq, List.countP_cons, isWriteRecord]
    · intro wres; simp [childRun, hs1, hs2, notify_parent_and_exit_eq]
  rcases hs3 : w.dup2StderrErr with _ | e3
  case some =>
    refine ⟨⟨[ChildAction.closeFd pr, ChildAction.dup2 fin STDIN_FILENO,
      ChildAction.dup2 fout STDOUT_FILENO, ChildAction.dup2 ferr STDERR_FILENO],
      CLIB_FORK_EXEC_CHILD_ERR_DUP2, e3, ?_⟩, ?_, ?_⟩
    · simp [childRun, hs1, hs2, hs3, notify_parent_and_exit_eq]
    · simp [childRun, hs1, hs2, hs3, notify_parent_and_exit_eq, List.countP_cons, isWriteRecord]
    · intro wres; simp [childRun, hs1, hs2, hs3, notify_parent_and_exit_eq]
  rcases hs4 : w.cloexecErr with _ | e4
  case some =>
    refine ⟨⟨[ChildAction.closeFd pr, ChildAction.dup2 fin STDIN_FILENO,
      ChildAction.dup2 fout STDOUT_FILENO, ChildAction.dup2 ferr STDERR_FILENO,
      ChildAction.closeFd fin, ChildAction.closeFd fout, ChildAction.closeFd ferr] ++
      closeLoop w.dtablesize pw ++ [ChildAction.setCloexec pw],
      CLIB_FORK_EXEC_CHILD_ERR_PIPE_CLOEXEC, e4, ?_⟩, ?_, ?_⟩
    · simp [childRun, hs1, hs2, hs3, hs4, notify_parent_and_exit_eq]
    · simp [childRun, hs1, hs2, hs3, hs4, notify_parent_and_exit_eq, List.countP_cons,
        List.countP_append, countP_isWriteRecord_closeLoop, isWriteRecord]
    · intro wres; simp [childRun, hs1, hs2, hs3, hs4, notify_parent_and_exit_eq]
  rcases hs5 : w.execErr with _ | e5
  case some =>
    refine ⟨⟨[ChildAction.closeFd pr, ChildAction.dup2 fin STDIN_FILENO,
      ChildAction.dup2 fout STDOUT_FILENO, ChildAction.dup2 ferr STDERR_FILENO,
      ChildAction.closeFd fin, ChildAction.closeFd fout, ChildAction.closeFd ferr] ++
      closeLoop w.dtablesize pw ++ [ChildAction.setCloexec pw] ++ signalResetTrace ++
      [ChildAction.unblockAll, ChildAction.execveAct],
      CLIB_FORK_EXEC_CHILD_ERR_EXEC, e5, ?_⟩, ?_, ?_⟩
    · simp [childRun, hs1, hs2, hs3, hs4, hs5, notify_parent_and_exit_eq]
    · simp [childRun, hs1, hs2, hs3, hs4, hs5, notify_parent_and_exit_eq, List.countP_cons,
        List.countP_append, countP_isWriteRecord_closeLoop,
        countP_isWriteRecord_signalResetTrace, isWriteRecord]
    · intro wres; simp [childRun, hs1, hs2, hs3, hs4, hs5, notify_parent_and_exit_eq]
  case none =>
    exfalso
    rcases h with hbad | hbad | hbad | hbad | hbad <;>
      first
        | exact hbad hs1
        | exact hbad hs2
        | exact hbad hs3
        | exact hbad hs4
        | exact hbad hs5

/-- Witness for C6: a failing `execve` produces one record and exit
status 127. -/
theorem childRun_single_record_w :
    (childRun ⟨none, none, none, none, some 2, WriteRes.ok, 6⟩
      10 11 12 13 14).countP isWriteRecord = 1 :=
  (childRun_single_record ⟨none, none, none, none, some 2, WriteRes.ok, 6⟩
    10 11 12 13 14 (Or.inr (Or.inr (Or.inr (Or.inr (by decide)))))).2.1

/-- **C8** Once the three redirections succeeded, the child's cleanup
loop closes exactly the descriptors strictly greater than stderr up to
`getdtablesize()` other than the channel write end; every such close is
in the child's trace, and close failures are never reported: every
record the child can ever write carries one of the three child stages
(none of which is a close failure). -/
theorem childRun_close_range (w : ChildWorld) (fin fout ferr pr pw : Int)
    (h1 : w.dup2StdinErr = none) (h2 : w.dup2StdoutErr = none)
    (h3 : w.dup2StderrErr = none) :
    (∀ fd : Int, ChildAction.closeFd fd ∈ closeLoop w.dtablesize pw ↔
        (3 ≤ fd ∧ fd ≤ (w.dtablesize : Int) ∧ fd ≠ pw))
    ∧ (∀ a ∈ closeLoop w.dtablesize pw, a ∈ childRun w fin fout ferr pr pw)
    ∧ (∀ fd stage e,
        ChildAction.writeRecord fd stage e ∈ childRun w fin fout ferr pr pw →
        stage = CLIB_FORK_EXEC_CHILD_ERR_DUP2 ∨
        stage = CLIB_FORK_EXEC_CHILD_ERR_PIPE_CLOEXEC ∨
        stage = CLIB_FORK_EXEC_CHILD_ERR_EXEC) := by
  refine ⟨?_, ?_, ?_⟩
  · intro fd
    constructor
    · intro hmem
      simp only [closeLoop, List.mem_map] at hmem
      obtain ⟨x, hx, hxeq⟩ := hmem
      injection hxeq with hxfd
      subst hxfd
      exact (mem_closeLoopFds w.dtablesize pw x).mp hx
    · intro hfd
      simp only [closeLoop, List.mem_map]
      exact ⟨fd, (mem_closeLoopFds w.dtablesize pw fd).mpr hfd, rfl⟩
  · intro a ha
    simp only [childRun, h1, h2, h3, List.mem_cons, List.mem_append]
    tauto
  · intro fd stage e hmem
    rcases hc : w.cloexecErr with _ | e4
    · rcases hx : w.execErr with _ | e5
      · exfalso
        simp [childRun, h1, h2, h3, hc, hx, closeLoop, closeLoopFds,
          signalResetTrace] at hmem
      · simp [childRun, h1, h2, h3, hc, hx, notify_parent_and_exit_eq, closeLoop,
          closeLoopFds, signalResetTrace] at hmem
        exact Or.inr (Or.inr hmem.2.1)
    · simp [childRun, h1, h2, h3, hc, notify_parent_and_exit_eq, closeLoop,
        closeLoopFds] at hmem
      exact Or.inr (Or.inl hmem.2.1)

/-- Witness for C8: with table size 6 and write end 5, descriptor 4 is
closed by the loop and that close is in the child's trace. -/
theorem childRun_close_range_w :
    ChildAction.closeFd 4 ∈
      childRun ⟨none, none, none, none, none, WriteRes.ok, 6⟩ 10 11 12 13 5 := by
  have h := childRun_close_range ⟨none, none, none, none, none, WriteRes.ok, 6⟩
    10 11 12 13 5 rfl rfl rfl
  exact h.2.1 (ChildAction.closeFd 4) ((h.1 4).mpr (by decide))

/-- **C9** When the child reaches the signal steps, its trace contains,
after the close-on-exec marking and before the `execve`, a reset of
every signal number `1 ≤ i < NSIG` to its default followed by the
process-wide unblocking of all signals; a reset happens for exactly the
valid signal numbers, and no failure of these steps is ever reported:
past this point the only record the child can write carries the
`child-exec` stage. -/
theorem childRun_signal_reset (w : ChildWorld) (fin fout ferr pr pw : Int)
    (h1 : w.dup2StdinErr = none) (h2 : w.dup2StdoutErr = none)
    (h3 : w.dup2StderrErr = none) (hc : w.cloexecErr = none) :
    (∃ p s, childRun w fin fout ferr pr pw =
        p ++ ChildAction.setCloexec pw ::
          (signalResetTrace ++ ChildAction.unblockAll :: ChildAction.execveAct :: s))
    ∧ (∀ i : Nat, ChildAction.resetSignal i ∈ childRun w fin fout ferr pr pw ↔
        (1 ≤ i ∧ i < NSIG))
    ∧ (∀ fd stage e,
        ChildAction.writeRecord fd stage e ∈ childRun w fin fout ferr pr pw →
        stage = CLIB_FORK_EXEC_CHILD_ERR_EXEC) := by
  rcases hx : w.execErr with _ | e5
  · refine ⟨⟨[ChildAction.closeFd pr, ChildAction.dup2 fin STDIN_FILENO,
      ChildAction.dup2 fout STDOUT_FILENO, ChildAction.dup2 ferr STDERR_FILENO,
      ChildAction.closeFd fin, ChildAction.closeFd fout, ChildAction.closeFd ferr] ++
      closeLoop w.dtablesize pw, [], ?_⟩, ?_, ?_⟩
    · simp [childRun, h1, h2, h3, hc, hx]
    · intro i
      simp only [childRun, h1, h2, h3, hc, hx, signalResetTrace, closeLoop,
        List.mem_cons, List.mem_append, List.mem_map, List.mem_range'_1, NSIG]
      simp
    · intro fd stage e hmem
      exfalso
      simp [childRun, h1, h2, h3, hc, hx, closeLoop, closeLoopFds,
        signalResetTrace] at hmem
  · refine ⟨⟨[ChildAction.closeFd pr, ChildAction.dup2 fin STDIN_FILENO,
      ChildAction.dup2 fout STDOUT_FILENO, ChildAction.dup2 ferr STDERR_FILENO,
      ChildAction.closeFd fin, ChildAction.closeFd fout, ChildAction.closeFd ferr] ++
      closeLoop w.dtablesize pw,
      [ChildAction.writeRecord pw CLIB_FORK_EXEC_CHILD_ERR_EXEC e5,
       ChildAction.exitStatus 127], ?_⟩, ?_, ?_⟩
    · simp [childRun, h1, h2, h3, hc, hx, notify_parent_and_exit_eq]
    · intro i
      simp only [childRun, h1, h2, h3, hc, hx, notify_parent_and_exit_eq,
        signalResetTrace, closeLoop, List.mem_cons, List.mem_append, List.mem_map,
        List.mem_range'_1, NSIG]
      simp
    · intro fd stage e hmem
      simp [childRun, h1, h2, h3, hc, hx, notify_parent_and_exit_eq, closeLoop,
        closeLoopFds, signalResetTrace] at hmem
      exact hmem.2.1

/-- Witness for C9: signal 5's disposition is reset in the child's
trace before a failing `execve`. -/
theorem childRun_signal_reset_w :
    ChildAction.resetSignal 5 ∈
      childRun ⟨none, none, none, none, some 2, WriteRes.ok, 6⟩ 10 11 12 13 14 := by
  have h := childRun_signal_reset ⟨none, none, none, none, some 2, WriteRes.ok, 6⟩
    10 11 12 13 14 rfl rfl rfl rfl
  exact (h.2.1 5).mpr (by decide)

end CLibShims
